import Mathlib

/-!
# Kibi federated join and query-execution engine: verification development

Shallow embedding of the query-execution subsystem of the kibi repository:
the per-backend query executor contract (cache key generation, result
fetching, caching), the join-sequence planner, the filter injector, the
proxy-layer guard for the reserved kibana index, and the courier sort
normalizer.

The concrete query classes (mysql_query, jdbc_query), the cache store, the
siren join planner and the inject/dbfilter modules are exercised by the
test files under `src/plugins/kibi_core/lib/__tests__/queries/` and wired
up in the elasticsearch plugin init, but their implementation files are
absent from the source tree given here; those parts are modelled from the
specification (each such definition notes this in its doc comment).  The
proxy guard `noDirectIndex` and `normalizeSortRequest` are translated
directly from the source.
-/

set_option autoImplicit false

namespace Kibi

/-- One row of a result: a mapping from column/field name to scalar value
(spec §3 "Binding: one row of a satellite query's result, represented as a
field-name-to-value mapping"). -/
abbrev Row := List (String × String)

/-- Normalized result shape (spec §3): `{ bindings: [ {col: value, ...}, ... ] }`,
an ordered sequence of rows. -/
structure ResultSet where
  bindings : List Row
deriving DecidableEq, Repr

/-- The empty `ResultSet` (`{ bindings: [] }`). -/
def ResultSet.empty : ResultSet := ⟨[]⟩

/-- Modelled from the spec: the `CacheKey` produced by `generateCacheKey`
(the implementation of the query classes is not under the given source
tree).  Spec §3: "a string deterministically derived from
`{connectionIdentity, resultQuery, forceRefreshFlag, variableBinding,
identity}`. Two executions with identical inputs MUST produce an identical
key; any difference in any component MUST change the key"; spec §6 says the
key is opaque and only ever compared for exact equality.  It is therefore
modelled as the fingerprint tuple itself. -/
structure CacheKey where
  connectionIdentity : String
  resultQuery : String
  forceRefresh : Bool
  variableBinding : String
  identity : String
deriving DecidableEq, Repr

/-- Modelled from the spec (§4.1): `generateCacheKey(connectionIdentity,
resultQueryText, forceRefresh, variableBinding, callerIdentity) -> CacheKey`
is a pure function of its five arguments, with no I/O. -/
def generateCacheKey (connectionIdentity resultQuery : String) (forceRefresh : Bool)
    (variableBinding identity : String) : CacheKey :=
  ⟨connectionIdentity, resultQuery, forceRefresh, variableBinding, identity⟩

/-- Modelled from the spec and the mysql_query test: the MySQL variant's
connection identity is the concatenation of the configured `host` and
`dbname` datasource parameters (the test asserts `generateCacheKey` is
called with `'localhostmydb'` for `host: 'localhost', dbname: 'mydb'`). -/
def mysqlConnectionIdentity (host dbname : String) : String :=
  host ++ dbname

/-- Per-invocation data (spec §3 `ExecutionContext`): caller credentials.
Only the username takes part in the executor contract exercised here. -/
structure ExecutionContext where
  username : String
deriving DecidableEq, Repr

/-- Raw backend response, as a list of rows (spec §4.1 step 5 normalizes
"the raw response into a ResultSet"). -/
abbrev RawRows := List Row

/-- Modelled from the spec (§4.1 step 5): normalization of a raw backend
response into the `ResultSet` shape; each raw row becomes one binding. -/
def normalizeRaw (rows : RawRows) : ResultSet :=
  ⟨rows⟩

/-- CacheStore contents (spec §4.2): a key→result store.  TTL bookkeeping
is not observable by the claims and is omitted. -/
abbrev Cache := List (CacheKey × ResultSet)

/-- CacheStore `get` (spec §4.2): lookup by exact key, `none` on miss. -/
def cacheGet (c : Cache) (k : CacheKey) : Option ResultSet :=
  (c.find? fun e => e.1 == k).map (·.2)

/-- CacheStore `set` (spec §4.2, §5): store under the key; writes to the
same key are last-write-wins. -/
def cacheSet (c : Cache) (k : CacheKey) (v : ResultSet) : Cache :=
  (k, v) :: c.filter fun e => ¬ e.1 == k

/-- Modelled from the spec (§4.1, §7): backend execution failures propagate
as `ExecutionError` carrying the backend identity and the underlying
cause. -/
inductive FetchError where
  | executionError (backendIdentity : String) (cause : String)
deriving DecidableEq, Repr

/-- Modelled from the spec (§3, §4.1, §6): the configuration an executor is
constructed with — activation and result query texts, the datasource's
caching flag and connection identity, the parameter-population capability,
the activation-query evaluator, and the backend execution hook
(`executeRaw`), which either fails with a cause or yields raw rows. -/
structure Executor where
  activationQuery : String
  resultQuery : String
  cacheEnabled : Bool
  connectionIdentity : String
  populate : String → String
  evalActivation : String → Bool
  backend : String → Except String RawRows

/-- Spec §3: the activation query "gates whether the query should run at
all (empty = always run)". -/
def activationPasses (ex : Executor) : Bool :=
  ex.activationQuery == "" || ex.evalActivation ex.activationQuery

/-- Observable per-executor state threaded through `fetchResults`: the
cache contents, how many times the backend execution hook ran, and the
argument tuples of every `generateCacheKey` invocation (spec §4.1 requires
the latter to be observable for testing). -/
structure FetchState where
  cache : Cache
  backendCalls : Nat
  keyCalls : List CacheKey
deriving DecidableEq, Repr

/-- Modelled from the spec (§4.1 `fetchResults`):
1. resolve the activation query; if it gates the query off, return an
   empty `ResultSet` without touching cache or backend;
2. populate the result query template;
3. compute the `CacheKey` via `generateCacheKey` (recorded in `keyCalls`);
4. with caching enabled and no forced refresh, consult the cache and
   return a hit unchanged;
5. on miss, run the backend; failures propagate as `ExecutionError` with
   the backend identity and cause and do not populate the cache; successes
   are normalized, stored (when caching is enabled) and returned. -/
def fetchResults (ex : Executor) (ctx : ExecutionContext) (forceRefresh : Bool)
    (variableBinding : String) (st : FetchState) :
    Except FetchError ResultSet × FetchState :=
  if activationPasses ex then
    let populated := ex.populate ex.resultQuery
    let key := generateCacheKey ex.connectionIdentity ex.resultQuery forceRefresh
      variableBinding ctx.username
    let st1 : FetchState := { st with keyCalls := st.keyCalls ++ [key] }
    match (if ex.cacheEnabled && !forceRefresh then cacheGet st1.cache key else none) with
    | some hit => (.ok hit, st1)
    | none =>
      let st2 : FetchState := { st1 with backendCalls := st1.backendCalls + 1 }
      match ex.backend populated with
      | .error cause => (.error (.executionError ex.connectionIdentity cause), st2)
      | .ok rows =>
        let rs := normalizeRaw rows
        let st3 : FetchState :=
          if ex.cacheEnabled then { st2 with cache := cacheSet st2.cache key rs } else st2
        (.ok rs, st3)
  else
    (.ok ResultSet.empty, st)

/-- The initial per-executor state: empty cache, no backend calls, no
`generateCacheKey` invocations recorded. -/
def FetchState.initial : FetchState := ⟨[], 0, []⟩

end Kibi

namespace Kibi

/-- C1: `generateCacheKey` is deterministic and collision-free over its
five components — two invocations yield the same key exactly when all five
components (connection identity, result query, force-refresh flag,
variable binding, caller identity) agree; in particular identical tuples
give identical keys and tuples differing in any one component give
different keys. -/
theorem generateCacheKey_eq_iff (c₁ q₁ : String) (f₁ : Bool) (v₁ i₁ : String)
    (c₂ q₂ : String) (f₂ : Bool) (v₂ i₂ : String) :
    generateCacheKey c₁ q₁ f₁ v₁ i₁ = generateCacheKey c₂ q₂ f₂ v₂ i₂ ↔
      c₁ = c₂ ∧ q₁ = q₂ ∧ f₁ = f₂ ∧ v₁ = v₂ ∧ i₁ = i₂ := by
  unfold generateCacheKey
  constructor
  · intro h
    injection h with h1 h2 h3 h4 h5
    exact ⟨h1, h2, h3, h4, h5⟩
  · rintro ⟨rfl, rfl, rfl, rfl, rfl⟩
    rfl

/-- The executor of the mysql_query test scenario: `resultQuery = "select *
from x"`, empty activation query, caching enabled, connection identity
`host ++ dbname = "localhostmydb"`, `populateParameters` leaving the query
text unchanged, and a backend stub resolving with an empty raw result
(`{result: {}}`, i.e. zero rows). -/
def mysqlTestExecutor : Executor where
  activationQuery := ""
  resultQuery := "select * from x"
  cacheEnabled := true
  connectionIdentity := mysqlConnectionIdentity "localhost" "mydb"
  populate := fun q => q
  evalActivation := fun _ => false
  backend := fun _ => .ok []

/-- C2: in the mysql_query test scenario — `fetchResults({credentials:
{username: 'fred'}}, false, 'variableX')` with the backend stub returning
an empty raw result — the call resolves to `{ bindings: [] }` and
`generateCacheKey` is invoked exactly once, with arguments
`("localhostmydb", "select * from x", false, "variableX", "fred")`. -/
theorem fetchResults_mysql_scenario :
    (fetchResults mysqlTestExecutor ⟨"fred"⟩ false "variableX" FetchState.initial).1 =
        .ok ResultSet.empty ∧
      (fetchResults mysqlTestExecutor ⟨"fred"⟩ false "variableX" FetchState.initial).2.keyCalls =
        [generateCacheKey "localhostmydb" "select * from x" false "variableX" "fred"] := by
  constructor <;> rfl

end Kibi

namespace Kibi

/-- The mysql-test executor with its backend stub replaced by one
resolving with the given raw rows. -/
def stubExecutor (rows : RawRows) : Executor :=
  { mysqlTestExecutor with backend := fun _ => .ok rows }

/-- C3: when the backend stub returns a non-empty raw result, the
`ResultSet` resolved by `fetchResults` has exactly one binding per raw
row, each row kept as its field-name-to-value mapping. -/
theorem fetchResults_nonempty_rows (rows : RawRows) (hne : rows ≠ []) :
    (fetchResults (stubExecutor rows) ⟨"fred"⟩ false "variableX" FetchState.initial).1 =
        .ok ⟨rows⟩ ∧
      ∀ rs : ResultSet,
        (fetchResults (stubExecutor rows) ⟨"fred"⟩ false "variableX"
            FetchState.initial).1 = .ok rs →
          rs.bindings.length = rows.length ∧ rs.bindings = rows := by
  refine ⟨rfl, fun rs h => ?_⟩
  have h' : (Except.ok (⟨rows⟩ : ResultSet) : Except FetchError ResultSet) =
      Except.ok rs := h
  injection h' with h2
  subst h2
  exact ⟨rfl, rfl⟩

/-- Witness for C3 at a concrete one-row raw result. -/
theorem fetchResults_nonempty_rows_witness :
    (fetchResults (stubExecutor [[("a", "1")]]) ⟨"fred"⟩ false "variableX"
        FetchState.initial).1 = .ok ⟨[[("a", "1")]]⟩ ∧
      ∀ rs : ResultSet,
        (fetchResults (stubExecutor [[("a", "1")]]) ⟨"fred"⟩ false "variableX"
            FetchState.initial).1 = .ok rs →
          rs.bindings.length = [[("a", "1")]].length ∧ rs.bindings = [[("a", "1")]] :=
  fetchResults_nonempty_rows [[("a", "1")]] (by decide)

/-- C4: with caching enabled, an always-running activation query and a
succeeding backend, calling `fetchResults` twice with `forceRefresh =
false` and unchanged inputs from a fresh state invokes the backend exactly
once — the second call is served from the cache — and both calls resolve
to the same `ResultSet` (the normalization of the raw rows). -/
theorem fetchResults_second_call_cached (ex : Executor) (ctx : ExecutionContext)
    (vb : String) (rows : RawRows)
    (hact : ex.activationQuery = "")
    (hcache : ex.cacheEnabled = true)
    (hback : ex.backend (ex.populate ex.resultQuery) = .ok rows) :
    (fetchResults ex ctx false vb
        (fetchResults ex ctx false vb FetchState.initial).2).2.backendCalls = 1 ∧
      (fetchResults ex ctx false vb
          (fetchResults ex ctx false vb FetchState.initial).2).1 =
        (fetchResults ex ctx false vb FetchState.initial).1 ∧
      (fetchResults ex ctx false vb FetchState.initial).1 = .ok (normalizeRaw rows) := by
  have hpass : activationPasses ex = true := by
    simp [activationPasses, hact]
  have h1 : fetchResults ex ctx false vb FetchState.initial =
      (.ok (normalizeRaw rows),
        ⟨cacheSet []
            (generateCacheKey ex.connectionIdentity ex.resultQuery false vb ctx.username)
            (normalizeRaw rows), 1,
          [generateCacheKey ex.connectionIdentity ex.resultQuery false vb ctx.username]⟩) := by
    simp [fetchResults, hpass, hcache, hback, FetchState.initial, cacheGet]
  have hget : cacheGet
      (cacheSet []
        (generateCacheKey ex.connectionIdentity ex.resultQuery false vb ctx.username)
        (normalizeRaw rows))
      (generateCacheKey ex.connectionIdentity ex.resultQuery false vb ctx.username) =
      some (normalizeRaw rows) := by
    simp [cacheGet, cacheSet, List.find?]
  have h2 : fetchResults ex ctx false vb
      (fetchResults ex ctx false vb FetchState.initial).2 =
      (.ok (normalizeRaw rows),
        ⟨cacheSet []
            (generateCacheKey ex.connectionIdentity ex.resultQuery false vb ctx.username)
            (normalizeRaw rows), 1,
          [generateCacheKey ex.connectionIdentity ex.resultQuery false vb ctx.username,
            generateCacheKey ex.connectionIdentity ex.resultQuery false vb ctx.username]⟩) := by
    rw [h1]
    simp [fetchResults, hpass, hcache, hget]
  rw [h2, h1]
  exact ⟨rfl, rfl, rfl⟩

/-- Witness for C4 at the concrete mysql-test executor with a one-row
backend result. -/
theorem fetchResults_second_call_cached_witness :
    (fetchResults (stubExecutor [[("a", "1")]]) ⟨"fred"⟩ false "variableX"
        (fetchResults (stubExecutor [[("a", "1")]]) ⟨"fred"⟩ false "variableX"
          FetchState.initial).2).2.backendCalls = 1 ∧
      (fetchResults (stubExecutor [[("a", "1")]]) ⟨"fred"⟩ false "variableX"
          (fetchResults (stubExecutor [[("a", "1")]]) ⟨"fred"⟩ false "variableX"
            FetchState.initial).2).1 =
        (fetchResults (stubExecutor [[("a", "1")]]) ⟨"fred"⟩ false "variableX"
          FetchState.initial).1 ∧
      (fetchResults (stubExecutor [[("a", "1")]]) ⟨"fred"⟩ false "variableX"
          FetchState.initial).1 = .ok (normalizeRaw [[("a", "1")]]) :=
  fetchResults_second_call_cached (stubExecutor [[("a", "1")]]) ⟨"fred"⟩ "variableX"
    [[("a", "1")]] rfl rfl rfl

/-- C8: when backend execution fails during `fetchResults` (the activation
query passes and the cache has no entry for the computed key, so the
backend is actually consulted), the error propagates as an
`ExecutionError` carrying the backend's connection identity and the
underlying cause, and the cache is left unchanged. -/
theorem fetchResults_backend_failure (ex : Executor) (ctx : ExecutionContext)
    (fr : Bool) (vb : String) (cause : String) (st : FetchState)
    (hact : ex.activationQuery = "")
    (hback : ex.backend (ex.populate ex.resultQuery) = .error cause)
    (hmiss : cacheGet st.cache
      (generateCacheKey ex.connectionIdentity ex.resultQuery fr vb ctx.username) = none) :
    (fetchResults ex ctx fr vb st).1 =
        .error (.executionError ex.connectionIdentity cause) ∧
      (fetchResults ex ctx fr vb st).2.cache = st.cache := by
  have hpass : activationPasses ex = true := by
    simp [activationPasses, hact]
  by_cases hc : (ex.cacheEnabled && !fr) = true
  · simp [fetchResults, hpass, hc, hmiss, hback]
  · simp [fetchResults, hpass, hc, hback]

/-- Witness for C8 at a concrete failing backend. -/
theorem fetchResults_backend_failure_witness :
    (fetchResults { mysqlTestExecutor with backend := fun _ => .error "boom" } ⟨"fred"⟩
        false "variableX" FetchState.initial).1 =
        .error (.executionError "localhostmydb" "boom") ∧
      (fetchResults { mysqlTestExecutor with backend := fun _ => .error "boom" } ⟨"fred"⟩
          false "variableX" FetchState.initial).2.cache = FetchState.initial.cache :=
  fetchResults_backend_failure
    { mysqlTestExecutor with backend := fun _ => .error "boom" } ⟨"fred"⟩ false "variableX"
    "boom" FetchState.initial rfl rfl rfl

end Kibi

namespace Kibi

/-- Modelled from the spec (§4.3 sequence mode): the planner executes the
relation's steps in declared order; each step is a function from the
previous step's `ResultSet` (its variable bindings) to its own
`ResultSet`.  Execution short-circuits with an empty result the moment any
step yields an empty `ResultSet`.  Alongside the final result the model
returns the trace of invoked steps: `(index, produced ResultSet)` pairs,
in invocation order, starting at `idx`. -/
def runSequenceAux (steps : List (ResultSet → ResultSet)) (acc : ResultSet) (idx : Nat) :
    ResultSet × List (Nat × ResultSet) :=
  match steps with
  | [] => (acc, [])
  | s :: rest =>
    if (s acc).bindings = [] then
      (ResultSet.empty, [(idx, s acc)])
    else
      ((runSequenceAux rest (s acc) (idx + 1)).1,
        (idx, s acc) :: (runSequenceAux rest (s acc) (idx + 1)).2)

/-- Modelled from the spec (§4.3): the sequence-mode join over an ordered
relation, starting from the initial bindings `start`; step indices count
from 0. -/
def sirenJoinSequence (steps : List (ResultSet → ResultSet)) (start : ResultSet) :
    ResultSet × List (Nat × ResultSet) :=
  runSequenceAux steps start 0

/-- Every step the sequence planner invokes has index at least the running
start index. -/
theorem runSequenceAux_idx_le (steps : List (ResultSet → ResultSet)) (acc : ResultSet)
    (idx : Nat) (p : Nat × ResultSet) (hp : p ∈ (runSequenceAux steps acc idx).2) :
    idx ≤ p.1 := by
  induction steps generalizing acc idx with
  | nil => simp [runSequenceAux] at hp
  | cons s rest ih =>
    unfold runSequenceAux at hp
    by_cases hr : (s acc).bindings = []
    · simp [hr] at hp
      simp [hp]
    · simp [hr] at hp
      rcases hp with hp | hp
      · simp [hp]
      · exact Nat.le_of_succ_le (ih (s acc) (idx + 1) hp)

end Kibi

namespace Kibi

/-- C5: in a sequence-mode join, as soon as any invoked step yields an
empty `ResultSet`, the planner returns an empty result and no executor of
any subsequent step in the relation is ever invoked (every invoked step's
index is at most the empty-yielding step's index). -/
theorem joinSequence_short_circuit (steps : List (ResultSet → ResultSet))
    (start : ResultSet) (k : Nat) (r : ResultSet)
    (hmem : (k, r) ∈ (sirenJoinSequence steps start).2) (hempty : r.bindings = []) :
    (sirenJoinSequence steps start).1 = ResultSet.empty ∧
      ∀ p ∈ (sirenJoinSequence steps start).2, p.1 ≤ k := by
  unfold sirenJoinSequence at *
  suffices h : ∀ idx acc, (k, r) ∈ (runSequenceAux steps acc idx).2 →
      (runSequenceAux steps acc idx).1 = ResultSet.empty ∧
        ∀ p ∈ (runSequenceAux steps acc idx).2, p.1 ≤ k by
    exact h 0 start hmem
  intro idx acc hm
  clear hmem
  induction steps generalizing acc idx with
  | nil => simp [runSequenceAux] at hm
  | cons s rest ih =>
    unfold runSequenceAux at hm ⊢
    by_cases hr : (s acc).bindings = []
    · rw [if_pos hr] at hm ⊢
      have h2 := Prod.ext_iff.mp (List.mem_singleton.mp hm)
      refine ⟨rfl, fun p hp => ?_⟩
      rw [List.mem_singleton.mp hp]
      exact h2.1.ge
    · rw [if_neg hr] at hm ⊢
      rcases List.mem_cons.mp hm with heq | hmem2
      · have h3 : r = s acc := (Prod.ext_iff.mp heq).2
        exact absurd (h3 ▸ hempty) hr
      · have ihres := ih (idx + 1) (s acc) hmem2
        have hidx := runSequenceAux_idx_le rest (s acc) (idx + 1) (k, r) hmem2
        refine ⟨ihres.1, fun p hp => ?_⟩
        rcases List.mem_cons.mp hp with hpeq | hpmem
        · rw [hpeq]
          exact Nat.le_of_succ_le hidx
        · exact ihres.2 p hpmem

/-- Witness for C5: a two-step relation whose first step yields an empty
`ResultSet`; the planner returns the empty result and only step 0 is ever
invoked. -/
theorem joinSequence_short_circuit_witness :
    ((0, ResultSet.empty) ∈
        (sirenJoinSequence [fun _ => ResultSet.empty, fun _ => ⟨[[("a", "1")]]⟩]
          ⟨[[("s", "0")]]⟩).2) ∧
      (ResultSet.empty.bindings = []) ∧
      (sirenJoinSequence [fun _ => ResultSet.empty, fun _ => ⟨[[("a", "1")]]⟩]
          ⟨[[("s", "0")]]⟩).1 = ResultSet.empty ∧
      ∀ p ∈ (sirenJoinSequence [fun _ => ResultSet.empty, fun _ => ⟨[[("a", "1")]]⟩]
          ⟨[[("s", "0")]]⟩).2, p.1 ≤ 0 :=
  ⟨by decide, rfl,
    joinSequence_short_circuit [fun _ => ResultSet.empty, fun _ => ⟨[[("a", "1")]]⟩]
      ⟨[[("s", "0")]]⟩ 0 ResultSet.empty (by decide) rfl⟩

end Kibi

namespace Kibi

/-- A filter clause of the target query template.  The injector works with
"in" filters restricting a field to a set of values (spec §4.4); other
clauses of the template are represented by `term` filters. -/
inductive Filter where
  | term (field value : String)
  | inSet (field : String) (values : List String)
deriving DecidableEq, Repr

/-- Evaluation of a filter clause against a document, given as a valuation
of field names: an `inSet` filter matches when the document's field value
belongs to the value set. -/
def filterMatches (f : Filter) (doc : String → String) : Bool :=
  match f with
  | .term field value => doc field == value
  | .inSet field values => values.contains (doc field)

/-- Whether a clause is the join filter injected for the given target
field. -/
def isJoinFilterFor (fld : String) (f : Filter) : Bool :=
  match f with
  | .inSet field _ => field == fld
  | _ => false

/-- Modelled from the spec (§4.4 Filter Injector): rewrite the template's
filter clauses by inserting/replacing the filter restricting the target
field to the computed value set — an "in" filter, which over an empty
value set is unsatisfiable, never an omitted filter.  Any previously
injected filter for the same field is replaced, not duplicated. -/
def injectFilter (fld : String) (values : List String) (template : List Filter) :
    List Filter :=
  Filter.inSet fld values :: template.filter fun f => ! isJoinFilterFor fld f

end Kibi

namespace Kibi

/-- C6: when the injectable value computed by the planner is empty, the
injector's output template contains a filter that matches no document —
it never produces an unfiltered template. -/
theorem injectFilter_empty_never_matches (fld : String) (template : List Filter) :
    Filter.inSet fld [] ∈ injectFilter fld [] template ∧
      ∀ doc : String → String, filterMatches (Filter.inSet fld []) doc = false := by
  constructor
  · exact List.mem_cons_self _ _
  · intro doc
    rfl

/-- C7: filter injection is idempotent — re-running injection on an
already-injected template with the same computed value yields a
structurally identical template, with no duplicate filters
accumulating. -/
theorem injectFilter_idempotent (fld : String) (values : List String)
    (template : List Filter) :
    injectFilter fld values (injectFilter fld values template) =
      injectFilter fld values template := by
  unfold injectFilter
  rw [List.filter_cons]
  simp [isJoinFilterFor, List.filter_filter]

end Kibi

namespace Kibi

/-- Drop, from the right end of the character list, every character
satisfying `p`. -/
def dropWhileRight (p : Char → Bool) (l : List Char) : List Char :=
  (l.reverse.dropWhile p).reverse

/-- lodash `trim(path)`: strip whitespace from both ends of the path. -/
def lodashTrim (l : List Char) : List Char :=
  dropWhileRight Char.isWhitespace (l.dropWhile Char.isWhitespace)

/-- lodash `trimRight(s, '/')`: strip trailing slash characters. -/
def trimRightSlashes (l : List Char) : List Char :=
  dropWhileRight (fun c => c == '/') l

/-- Modelled from the spec (§6 proxy layer boundary): `createPath` of the
proxy module (`create_kibana_proxy` is not under the given source tree)
joins the proxy mount prefix and a path segment into one slash-separated
path, inserting a slash when the segment does not already start with
one. -/
def createPath (base seg : List Char) : List Char :=
  if seg.head? = some '/' then base ++ seg else base ++ '/' :: seg

/-- Outcome of a route pre-handler that terminates the request instead of
letting it continue. -/
inductive PreOutcome where
  | methodNotAllowed (msg : String)
  | badRequest (msg : String)
deriving DecidableEq, Repr

/-- From the elasticsearch plugin init (`noDirectIndex`): trim the request
path of surrounding whitespace and trailing slashes; when it equals
`createPath('/elasticsearch', kibanaIndex)`, reply with Boom
`methodNotAllowed`, otherwise continue (`none`). -/
def noDirectIndex (kibanaIndex path : List Char) : Option PreOutcome :=
  let requestPath := trimRightSlashes (lodashTrim path)
  let matchPath := createPath "/elasticsearch".toList kibanaIndex
  if requestPath = matchPath then
    some (.methodNotAllowed "You cannot modify the primary kibana index through this interface.")
  else
    none

/-- `p` occurs as a run of consecutive characters starting at the head of
`l`. -/
def matchesAt : List Char → List Char → Bool
  | [], _ => true
  | _ :: _, [] => false
  | p :: ps, c :: cs => p == c && matchesAt ps cs

/-- `pat` occurs as a run of consecutive characters somewhere in the
list (the `/\/_bulk/` regex test of `noBulkCheck`). -/
def containsSeq (pat : List Char) : List Char → Bool
  | [] => matchesAt pat []
  | c :: cs => matchesAt pat (c :: cs) || containsSeq pat cs

/-- From the elasticsearch plugin init (`noBulkCheck`): reject with a 400
reply any path containing `/_bulk`, otherwise continue (`none`). -/
def noBulkCheck (path : List Char) : Option PreOutcome :=
  if containsSeq "/_bulk".toList path then
    some (.badRequest "You can not send _bulk requests to this interface.")
  else
    none

/-- HTTP methods relevant to the kibana-index route registration. -/
inductive Method where
  | get
  | put
  | post
  | delete
deriving DecidableEq, Repr

/-- How the proxy layer disposes of a request: terminated by a pre-handler
reply, or forwarded to the search cluster. -/
inductive RouteOutcome where
  | rejected (out : PreOutcome)
  | forwarded
deriving DecidableEq, Repr

/-- The route registered for `PUT`/`POST`/`DELETE` on
`/${kibanaIndex}/{paths*}` with `pre: [noDirectIndex, noBulkCheck]`: the
pre-handlers run in order, a terminating reply ends processing, and only
when both continue is the request forwarded. -/
def kibanaIndexWriteRoute (kibanaIndex path : List Char) : RouteOutcome :=
  match noDirectIndex kibanaIndex path with
  | some out => .rejected out
  | none =>
    match noBulkCheck path with
    | some out => .rejected out
    | none => .forwarded

/-- Dispatch of a request on the kibana-index route: the guarded route is
registered only for the write methods `PUT`, `POST` and `DELETE`; a `GET`
reaches the unguarded catch-all proxy and is forwarded. -/
def handleKibanaIndexRequest (kibanaIndex : List Char) (m : Method) (path : List Char) :
    RouteOutcome :=
  match m with
  | .put => kibanaIndexWriteRoute kibanaIndex path
  | .post => kibanaIndexWriteRoute kibanaIndex path
  | .delete => kibanaIndexWriteRoute kibanaIndex path
  | .get => .forwarded

end Kibi

namespace Kibi

/-- C9: the proxy layer blocks direct writes to the reserved kibana index —
every `PUT`, `POST` or `DELETE` request whose trimmed path equals the
kibana index path (`createPath('/elasticsearch', kibanaIndex)`) is
rejected with a method-not-allowed error instead of being forwarded. -/
theorem noDirectIndex_blocks_writes (m : Method) (kibanaIndex path : List Char)
    (hm : m = .put ∨ m = .post ∨ m = .delete)
    (hp : trimRightSlashes (lodashTrim path) = createPath "/elasticsearch".toList kibanaIndex) :
    handleKibanaIndexRequest kibanaIndex m path =
      .rejected (.methodNotAllowed
        "You cannot modify the primary kibana index through this interface.") := by
  have hroute : kibanaIndexWriteRoute kibanaIndex path =
      .rejected (.methodNotAllowed
        "You cannot modify the primary kibana index through this interface.") := by
    unfold kibanaIndexWriteRoute noDirectIndex
    rw [if_pos hp]
  rcases hm with rfl | rfl | rfl <;> exact hroute

/-- Witness for C9: a `PUT` on `"  /elasticsearch/.kibi/ "` with kibana
index `".kibi"` — after whitespace and trailing-slash trimming the path
equals `/elasticsearch/.kibi` and the request is rejected. -/
theorem noDirectIndex_blocks_writes_witness :
    (trimRightSlashes (lodashTrim "  /elasticsearch/.kibi/ ".toList) =
        createPath "/elasticsearch".toList ".kibi".toList) ∧
      handleKibanaIndexRequest ".kibi".toList Method.put "  /elasticsearch/.kibi/ ".toList =
        .rejected (.methodNotAllowed
          "You cannot modify the primary kibana index through this interface.") :=
  ⟨by decide,
    noDirectIndex_blocks_writes Method.put ".kibi".toList "  /elasticsearch/.kibi/ ".toList
      (Or.inl rfl) (by decide)⟩

end Kibi

namespace Kibi

/-- A scalar JavaScript value as it occurs inside a sort options object:
either `undefined` or a string. -/
inductive SVal where
  | undef
  | str (s : String)
deriving DecidableEq, Repr

/-- JavaScript truthiness of a scalar sort-option value: `undefined` and
the empty string are falsy. -/
def svalTruthy : SVal → Bool
  | .undef => false
  | .str s => !(s == "")

/-- A JavaScript value in a sort specification: `undefined`, a direction
string, or a one-level object of scalar options. -/
inductive JsVal where
  | undef
  | str (s : String)
  | obj (fields : List (String × SVal))
deriving DecidableEq, Repr

/-- Property read `o[k]` on a one-level object. -/
def getKey (kvs : List (String × SVal)) (k : String) : Option SVal :=
  (kvs.find? fun kv => kv.1 == k).map (·.2)

/-- `_.defaults({}, v, defaults)`: the keys of `v` (when `v` is an
object), followed by the entries of `defaults` whose keys `v` does not
contain; a non-object `v` contributes nothing. -/
def defaultsMerge (v : JsVal) (defaults : List (String × SVal)) : List (String × SVal) :=
  match v with
  | .obj kvs => kvs ++ defaults.filter fun kv => (kvs.find? fun kv2 => kv2.1 == kv.1).isNone
  | _ => defaults

/-- Property assignment `o[k] = v`: replace an existing entry in place, or
append a new one. -/
def setKey (kvs : List (String × SVal)) (k : String) (v : SVal) : List (String × SVal) :=
  if (kvs.find? fun kv => kv.1 == k).isSome then
    kvs.map fun kv => if kv.1 == k then (k, v) else kv
  else
    kvs ++ [(k, v)]

/-- An index-pattern field as consulted by the normalizer:
`indexPattern.fields.byName[sortField]` exposes `scripted`, `sortable`,
`type` (the empty string models an absent type) and `script`. -/
structure IndexField where
  name : String
  scripted : Bool
  sortable : Bool
  ftype : String
  script : String
deriving DecidableEq, Repr

/-- From `_normalize_sort_request.js` (`normalize`): normalize one sort
description to the verbose format.  A scripted sortable field becomes a
`_script` sort carrying the field's script, type and direction; otherwise
a string direction is wrapped as `{order: d}` and merged over the
configured default sort options, and — the kibi addition — when the field
is sortable with a valid non-conflict type, the merged object receives an
`unmapped_type` and the sort key may be replaced by an alternative sorting
field.  `getAlt` stands for `getAlternativeSortingField`, whose module is
not under the given source tree; it is kept as an abstract parameter
returning an optional `(name, type)` pair.  An empty sort object gets the
key `"undefined"` (the JavaScript coercion of an undefined property
key). -/
def normalize (defaults : List (String × SVal))
    (getAlt : IndexField → Option (String × String)) (fields : List IndexField)
    (sortable : List (String × JsVal)) : List (String × JsVal) :=
  match sortable with
  | [] =>
    [("undefined", JsVal.obj (defaultsMerge JsVal.undef defaults))]
  | (f0, v0) :: _ =>
    match fields.find? fun fl => fl.name == f0 with
    | some fl =>
      if fl.scripted && fl.sortable then
        let direction : SVal :=
          match v0 with
          | .str s => .str s
          | .obj kvs =>
            match getKey kvs "order" with
            | some sv => if svalTruthy sv then sv else .undef
            | none => .undef
          | .undef => .undef
        [("_script", JsVal.obj
          [("script", .str fl.script), ("type", .str fl.ftype), ("order", direction)])]
      else
        let sv1 : JsVal := match v0 with | .str s => .obj [("order", .str s)] | other => other
        let sv2 := defaultsMerge sv1 defaults
        if fl.sortable && !(fl.ftype == "") && !(fl.ftype == "conflict") then
          match getAlt fl with
          | some alt => [(alt.1, JsVal.obj (setKey sv2 "unmapped_type" (.str alt.2)))]
          | none => [(f0, JsVal.obj (setKey sv2 "unmapped_type" (.str fl.ftype)))]
        else
          [(f0, JsVal.obj sv2)]
    | none =>
      let sv1 : JsVal := match v0 with | .str s => .obj [("order", .str s)] | other => other
      [(f0, JsVal.obj (defaultsMerge sv1 defaults))]

/-- A sort specification handed to the returned closure: either a single
sort object or an array of sort objects (`[].concat(sortObject)` wraps the
former into a one-element array). -/
inductive SortInput where
  | one (o : List (String × JsVal))
  | many (l : List (List (String × JsVal)))
deriving DecidableEq, Repr

/-- From `_normalize_sort_request.js`: `[].concat(sortObject).map(normalize)`
— one normalized entry per input element. -/
def normalizeSortRequest (defaults : List (String × SVal))
    (getAlt : IndexField → Option (String × String)) (fields : List IndexField) :
    SortInput → List (List (String × JsVal))
  | .one o => [normalize defaults getAlt fields o]
  | .many l => l.map (normalize defaults getAlt fields)

/-- Merging a bare `{order: x}` object over the defaults keeps `order`
first and the non-`order` defaults after it. -/
theorem defaultsMerge_order_single (x : SVal) (defaults : List (String × SVal)) :
    defaultsMerge (JsVal.obj [("order", x)]) defaults =
      ("order", x) :: defaults.filter fun kv => !("order" == kv.1) := by
  unfold defaultsMerge
  simp only [List.singleton_append, List.cons.injEq, true_and]
  apply List.filter_congr
  intro kv _
  cases h : ("order" == kv.1) <;> simp [List.find?, h]

end Kibi

namespace Kibi

/-- The concrete non-scripted sortable number field used to refute the
claim as stated. -/
def priceField : IndexField := ⟨"price", false, true, "number", ""⟩

/-- C10 counterexample: for the non-scripted sortable field `price` of
type `number`, sorted by the string direction `"desc"` with empty default
sort options, the code does NOT return the object with just `order`
merged with the defaults (`{price: {order: "desc"}}`) — the kibi branch
additionally sets `unmapped_type: "number"`. -/
theorem normalizeSortRequest_claim_counterexample :
    normalizeSortRequest [] (fun _ => none) [priceField]
        (.one [("price", JsVal.str "desc")]) =
      [[("price", JsVal.obj
        [("order", SVal.str "desc"), ("unmapped_type", SVal.str "number")])]] ∧
      normalizeSortRequest [] (fun _ => none) [priceField]
          (.one [("price", JsVal.str "desc")]) ≠
        [[("price", JsVal.obj [("order", SVal.str "desc")])]] := by
  constructor <;> decide

/-- C10 (amended): `normalizeSortRequest` is total over single-object and
array sort specifications with one normalized entry per input element; a
non-scripted field's string direction `d` becomes an object with `order d`
merged with the configured default sort options when the field is unknown,
not sortable, or lacks a valid non-conflict type; when such a field is
sortable with a valid non-conflict type, the merged object additionally
carries an `unmapped_type` (and the sort key may be replaced by an
alternative sorting field); a scripted sortable field is rewritten to the
key `_script` carrying the field's script, type and direction. -/
theorem normalizeSortRequest_amended (defaults : List (String × SVal))
    (getAlt : IndexField → Option (String × String)) (fields : List IndexField) :
    (∀ l, (normalizeSortRequest defaults getAlt fields (.many l)).length = l.length) ∧
      (∀ o, (normalizeSortRequest defaults getAlt fields (.one o)).length = 1) ∧
      (∀ f d fl, fields.find? (fun g => g.name == f) = some fl →
        fl.scripted = false →
        (fl.sortable && !(fl.ftype == "") && !(fl.ftype == "conflict")) = false →
        normalize defaults getAlt fields [(f, .str d)] =
          [(f, JsVal.obj (("order", SVal.str d) ::
            defaults.filter fun kv => !("order" == kv.1)))]) ∧
      (∀ f d, fields.find? (fun g => g.name == f) = none →
        normalize defaults getAlt fields [(f, .str d)] =
          [(f, JsVal.obj (("order", SVal.str d) ::
            defaults.filter fun kv => !("order" == kv.1)))]) ∧
      (∀ f d fl, fields.find? (fun g => g.name == f) = some fl →
        fl.scripted = false → fl.sortable = true →
        (fl.ftype == "") = false → (fl.ftype == "conflict") = false →
        normalize defaults getAlt fields [(f, .str d)] =
          [(((getAlt fl).map Prod.fst).getD f,
            JsVal.obj (setKey
              (("order", SVal.str d) :: defaults.filter fun kv => !("order" == kv.1))
              "unmapped_type"
              (.str (((getAlt fl).map Prod.snd).getD fl.ftype))))]) ∧
      (∀ f d fl, fields.find? (fun g => g.name == f) = some fl →
        fl.scripted = true → fl.sortable = true →
        normalize defaults getAlt fields [(f, .str d)] =
          [("_script", JsVal.obj
            [("script", .str fl.script), ("type", .str fl.ftype),
              ("order", .str d)])]) := by
  refine ⟨?_, ?_, ?_, ?_, ?_, ?_⟩
  · intro l
    simp [normalizeSortRequest]
  · intro o
    simp [normalizeSortRequest]
  · intro f d fl hfind hscripted hcond
    simp [normalize, hfind, hscripted, hcond, defaultsMerge_order_single]
  · intro f d hfind
    simp [normalize, hfind, defaultsMerge_order_single]
  · intro f d fl hfind hscripted hsort ht1 ht2
    cases halt : getAlt fl with
    | none =>
      simp [normalize, hfind, hscripted, hsort, ht1, ht2, halt, defaultsMerge_order_single]
    | some alt =>
      simp [normalize, hfind, hscripted, hsort, ht1, ht2, halt, defaultsMerge_order_single]
  · intro f d fl hfind hscripted hsort
    simp [normalize, hfind, hscripted, hsort]

/-- Witness for C10 (amended), instantiating each conditional part at
concrete fields: a found-but-not-valid-type field, an unknown field, a
sortable number field (with no alternative sorting field), and a scripted
sortable field. -/
theorem normalizeSortRequest_amended_witness :
    normalize [("mode", SVal.str "min")] (fun _ => none)
        [⟨"raw", false, false, "number", ""⟩] [("raw", .str "asc")] =
      [("raw", JsVal.obj [("order", SVal.str "asc"), ("mode", SVal.str "min")])] ∧
      normalize [("mode", SVal.str "min")] (fun _ => none)
          [⟨"raw", false, false, "number", ""⟩] [("unknown", .str "asc")] =
        [("unknown", JsVal.obj [("order", SVal.str "asc"), ("mode", SVal.str "min")])] ∧
      normalize [("mode", SVal.str "min")] (fun _ => none) [priceField]
          [("price", .str "asc")] =
        [("price", JsVal.obj [("order", SVal.str "asc"), ("mode", SVal.str "min"),
          ("unmapped_type", SVal.str "number")])] ∧
      normalize [("mode", SVal.str "min")] (fun _ => none)
          [⟨"scr", true, true, "number", "doc.x"⟩] [("scr", .str "desc")] =
        [("_script", JsVal.obj [("script", SVal.str "doc.x"),
          ("type", SVal.str "number"), ("order", SVal.str "desc")])] :=
  ⟨(normalizeSortRequest_amended [("mode", SVal.str "min")] (fun _ => none)
      [⟨"raw", false, false, "number", ""⟩]).2.2.1 "raw" "asc"
      ⟨"raw", false, false, "number", ""⟩ rfl rfl rfl,
    (normalizeSortRequest_amended [("mode", SVal.str "min")] (fun _ => none)
      [⟨"raw", false, false, "number", ""⟩]).2.2.2.1 "unknown" "asc" rfl,
    (normalizeSortRequest_amended [("mode", SVal.str "min")] (fun _ => none)
      [priceField]).2.2.2.2.1 "price" "asc" priceField rfl rfl rfl rfl rfl,
    (normalizeSortRequest_amended [("mode", SVal.str "min")] (fun _ => none)
      [⟨"scr", true, true, "number", "doc.x"⟩]).2.2.2.2.2 "scr" "desc"
      ⟨"scr", true, true, "number", "doc.x"⟩ rfl rfl rfl⟩

end Kibi
